import Mathlib

/-!
Verification of the daily-message dispatcher backend (`src/server.js` and its
Twilio / Resend variants).  The JavaScript source is shallowly embedded:

* `Message` mirrors the record literals pushed by `POST /api/messages`
  (`sentAt` is absent until the dispatcher stamps it, hence `Option`);
  timestamps (`Date.now()` milliseconds, ISO strings) are modelled as `Nat`.
* HTTP handlers and `sendDailyMessage` become pure functions from the
  in-memory state (`messages`, `config`, transporter availability) and the
  outcome of the one external send call to the response, the new state, and
  a flag recording whether `saveMessages`/`saveConfig` was invoked.
-/

/-- A message record as created by `POST /api/messages` in `server.js`:
`{ id: Date.now(), text, sent: false, createdAt, sentAt? }`. -/
structure Message where
  id : Nat
  text : String
  sent : Bool
  createdAt : Nat
  sentAt : Option Nat
deriving Repr, DecidableEq

/-- The JSON body returned by `sendDailyMessage`:
`{ success: bool, message: string }`. -/
structure SendResult where
  success : Bool
  message : String
deriving Repr, DecidableEq

/-! ## Address resolver (`phoneToSmsEmail`, server.js lines 104-110) -/

/-- Value of a hexadecimal digit character, `none` for non-digits. -/
def hexDigitVal (c : Char) : Option Nat :=
  if c.isDigit then some (c.toNat - 48)
  else if 'a' ≤ c ∧ c ≤ 'f' then some (c.toNat - 97 + 10)
  else if 'A' ≤ c ∧ c ≤ 'F' then some (c.toNat - 65 + 10)
  else none

/-- Digit value of `c` when it is a valid digit below `radix`. -/
def digitValBelow (radix : Nat) (c : Char) : Option Nat :=
  match hexDigitVal c with
  | some v => if v < radix then some v else none
  | none => none

/-- Longest prefix of digit values readable in the given radix. -/
def takeDigitVals (radix : Nat) : List Char → List Nat
  | [] => []
  | c :: rest =>
    match digitValBelow radix c with
    | some v => v :: takeDigitVals radix rest
    | none => []

/-- JavaScript `parseInt(s)` with no radix argument: skip leading
whitespace, read an optional sign, detect a `0x`/`0X` hexadecimal prefix
(otherwise radix 10), then read the longest prefix of digits; `NaN`
(modelled as `none`) when no digit is read. -/
def parseIntJs (s : String) : Option Int :=
  let cs := s.data.dropWhile (fun c => c.isWhitespace)
  let signAndRest : Bool × List Char :=
    match cs with
    | '-' :: r => (true, r)
    | '+' :: r => (false, r)
    | _ => (false, cs)
  let radixAndRest : Nat × List Char :=
    match signAndRest.2 with
    | '0' :: 'x' :: r => (16, r)
    | '0' :: 'X' :: r => (16, r)
    | other => (10, other)
  let ds := takeDigitVals radixAndRest.1 radixAndRest.2
  if ds.isEmpty then none
  else
    let n : Nat := ds.foldl (fun acc d => acc * radixAndRest.1 + d) 0
    some (if signAndRest.1 then -(n : Int) else (n : Int))

/-- The comparison performed by the delete filter `m.id !== id`: the parsed
value matches an id exactly when parsing produced a number equal to it (a
`NaN` result, `none`, matches nothing, since `NaN !== x` for every `x`). -/
def idMatches (parsed : Option Int) (id : Nat) : Bool :=
  match parsed with
  | some v => decide (v = (id : Int))
  | none => false

/-! ## Message-queue operations (HTTP handlers of server.js) -/

/-- The filtering step of `DELETE /api/messages/:id`:
`messages = messages.filter(m => m.id !== parseInt(req.params.id))`. -/
def deleteFilter (idStr : String) (msgs : List Message) : List Message :=
  msgs.filter (fun m => !(idMatches (parseIntJs idStr) m.id))

/-- `DELETE /api/messages/:id` (server.js lines 168-179): parse the id,
filter the queue, persist, and respond `{ success: true }` unconditionally.
Returns (response success flag, new queue, persisted flag). -/
def deleteMessage (idStr : String) (msgs : List Message) :
    Bool × List Message × Bool :=
  (true, deleteFilter idStr msgs, true)

/-- The response of `POST /api/messages`:
`{ success: true, message: newMessage }`. -/
structure AddResponse where
  success : Bool
  message : Message
deriving Repr, DecidableEq

/-- `POST /api/messages` (server.js lines 149-165): build
`{ id: Date.now(), text, sent: false, createdAt }`, push it, persist, and
respond with success.  `now` stands for `Date.now()` at the instant of the
call.  No validation of `text` is performed by the source. -/
def addMessage (text : String) (now : Nat) (msgs : List Message) :
    AddResponse × List Message × Bool :=
  let newMessage : Message :=
    { id := now, text := text, sent := false, createdAt := now, sentAt := none }
  ({ success := true, message := newMessage }, msgs ++ [newMessage], true)

/-- `messages.filter(m => !m.sent)[0]`: the dispatcher's selection, and the
queue's "peek oldest unsent" in the spec's vocabulary. -/
def oldestUnsent (msgs : List Message) : Option Message :=
  (msgs.filter (fun m => !m.sent)).head?

/-! ## Dispatcher (`sendDailyMessage`, server.js lines 182-230) -/

/-- Outcome of the single external send call
(`transporter.sendMail` in server.js): it resolves, or rejects with an
error whose `.message` is the reason. -/
inductive SendOutcome where
  | ok
  | err (reason : String)
deriving Repr, DecidableEq

/-- The in-place mutation `messageToSend.sent = true; messageToSend.sentAt = ...`:
`messageToSend` aliases the first element of `messages` with `sent` false,
so the queue after the mutation is the queue with that element updated. -/
def markFirstUnsent (now : Nat) : List Message → List Message
  | [] => []
  | m :: rest =>
    if m.sent then m :: markFirstUnsent now rest
    else { m with sent := true, sentAt := some now } :: rest

/-- `sendDailyMessage()` of server.js as a function of the queue, whether
the email transporter was initialized, `config.phoneNumber`, the outcome of
the send call, and the clock.  Returns the result object, the queue after
the run, and whether `saveMessages()` ran. -/
def sendDailyMessage (msgs : List Message) (transporterConfigured : Bool)
    (phoneNumber : String) (outcome : SendOutcome) (now : Nat) :
    SendResult × List Message × Bool :=
  if (msgs.filter (fun m => !m.sent)).isEmpty then
    ({ success := false, message := "No messages queued" }, msgs, false)
  else if transporterConfigured = false then
    ({ success := false, message := "Email not configured" }, msgs, false)
  else if phoneNumber = "" then
    ({ success := false, message := "No phone number configured" }, msgs, false)
  else
    match outcome with
    | .ok =>
      ({ success := true, message := "Message sent!" }, markFirstUnsent now msgs, true)
    | .err reason =>
      ({ success := false, message := reason }, msgs, false)

/-- Count of messages that flipped from unsent to sent between two queues
of equal length (position by position). -/
def newlySent (before after : List Message) : Nat :=
  ((before.zip after).filter (fun p => !p.1.sent && p.2.sent)).length

/-! ## Sequences of queue operations (for the oldest-unsent property) -/

/-- One management call against the queue: an add (with the `Date.now()`
value observed by that call) or a delete (with the raw `:id` path segment). -/
inductive QOp where
  | add (text : String) (now : Nat)
  | del (idStr : String)
deriving Repr, DecidableEq

/-- Apply one management call to the queue, as the server.js handlers do. -/
def applyOp (msgs : List Message) : QOp → List Message
  | .add text now => (addMessage text now msgs).2.1
  | .del idStr => (deleteMessage idStr msgs).2.1

/-- Apply a whole sequence of management calls, oldest first. -/
def applyOps (msgs : List Message) (ops : List QOp) : List Message :=
  ops.foldl applyOp msgs

/-- The `Date.now()` values of the add calls of a sequence, in call order. -/
def addTimes : List QOp → List Nat
  | [] => []
  | .add _ now :: rest => now :: addTimes rest
  | .del _ :: rest => addTimes rest

/-! ## Scheduler and configuration (`setupSchedule`, `POST /api/config`) -/

/-- The configuration singleton of server.js. -/
structure Config where
  phoneNumber : String
  sendTime : String
  carrier : String
deriving Repr, DecidableEq

/-- The request body of `POST /api/config`; absent JSON fields are `none`. -/
structure ConfigBody where
  phoneNumber : String
  sendTime : Option String
  carrier : Option String
deriving Repr, DecidableEq

/-- JavaScript `x || d` for an optional string: `undefined` and `""` are
falsy and yield the default. -/
def jsOrDefault (x : Option String) (d : String) : String :=
  match x with
  | some s => if s = "" then d else s
  | none => d

/-- `String.prototype.split(sep)` on the character list: every separator
starts a new part, an empty string yields one empty part. -/
def splitCharList (sep : Char) : List Char → List (List Char)
  | [] => [[]]
  | c :: rest =>
    let r := splitCharList sep rest
    if c = sep then [] :: r
    else
      match r with
      | h :: t => (c :: h) :: t
      | [] => [[c]]

/-- Numeric value of an all-digit character list, most significant first. -/
def digitsToNat (l : List Char) : Nat :=
  l.foldl (fun acc c => acc * 10 + (c.toNat - 48)) 0

/-- Whether a single cron field consisting of decimal digits, or the
literal `*`, is accepted for the given inclusive range.  Modelled from
node-cron's pattern validation restricted to the field shapes relevant
here: the library also accepts lists, ranges and step syntax, which this
model does not cover (theorems using it restrict to star-or-digit fields).
An empty or otherwise malformed field is rejected, and `cron.schedule`
throws on a rejected pattern. -/
def cronFieldOk (lo hi : Nat) (field : String) : Bool :=
  field = "*" ||
    (!field.isEmpty && field.data.all (fun c => c.isDigit) &&
      lo ≤ digitsToNat field.data && digitsToNat field.data ≤ hi)

/-- A cron field is star-shaped or digit-shaped: the fragment of node-cron
syntax covered by `cronFieldOk`. -/
def cronFieldSimple (field : String) : Bool :=
  field = "*" || field.data.all (fun c => c.isDigit)

/-- The two fields `setupSchedule` derives from `config.sendTime`:
`const [hours, minutes] = config.sendTime.split(':')`.  A missing second
component is `undefined`, which the template literal renders as the text
`undefined`. -/
def sendTimeFields (sendTime : String) : String × String :=
  let parts := (splitCharList ':' sendTime.data).map String.mk
  (parts.headD "", (parts.get? 1).getD "undefined")

/-- The cron pattern `setupSchedule` builds:
`` `${minutes} ${hours} * * *` ``. -/
def cronPattern (sendTime : String) : String :=
  let fields := sendTimeFields sendTime
  fields.2 ++ " " ++ fields.1 ++ " * * *"

/-- Whether `cron.schedule` accepts the pattern built from `sendTime`
(minute field 0-59, hour field 0-23, within the modelled fragment). -/
def cronAccepts (sendTime : String) : Bool :=
  let fields := sendTimeFields sendTime
  cronFieldOk 0 23 fields.1 && cronFieldOk 0 59 fields.2

/-- Scheduler state: the pattern of the active cron job, if one is armed. -/
structure SchedState where
  armedCron : Option String
deriving Repr, DecidableEq

/-- `setupSchedule()` of server.js (lines 236-251): stop the current job
first, then build the pattern and call `cron.schedule`, which throws on an
invalid pattern — leaving no job armed.  Returns the scheduler state and
whether the call threw. -/
def setupSchedule (sendTime : String) (_sched : SchedState) :
    SchedState × Bool :=
  if cronAccepts sendTime then
    ({ armedCron := some (cronPattern sendTime) }, false)
  else
    ({ armedCron := none }, true)

/-- Full server state touched by `POST /api/config`. -/
structure ServerState where
  config : Config
  savedConfig : Config
  sched : SchedState
deriving Repr, DecidableEq

/-- The HTTP response of `POST /api/config`: success, or the 500 error
branch of the handler's `catch`. -/
inductive ConfigResponse where
  | okJson (config : Config)
  | error500
deriving Repr, DecidableEq

/-- `POST /api/config` (server.js lines 128-146): replace the config
wholesale (`sendTime || '12:00'`, `carrier || 'att'`), persist it with
`saveConfig()`, then call `setupSchedule()`; a throw from `cron.schedule`
is caught and answered with status 500, but by then the config is already
replaced and saved and the previous cron job is already stopped. -/
def updateConfig (body : ConfigBody) (st : ServerState) :
    ConfigResponse × ServerState :=
  let newConfig : Config :=
    { phoneNumber := body.phoneNumber,
      sendTime := jsOrDefault body.sendTime "12:00",
      carrier := jsOrDefault body.carrier "att" }
  let st1 : ServerState :=
    { st with config := newConfig, savedConfig := newConfig }
  let schedAndThrew := setupSchedule newConfig.sendTime st1.sched
  if schedAndThrew.2 then
    (.error500, { st1 with sched := schedAndThrew.1 })
  else
    (.okJson newConfig, { st1 with sched := schedAndThrew.1 })

/-! ## Two interleaved dispatcher runs (concurrency model)

`sendDailyMessage` is `async` with its only suspension point before the
queue mutation at `await transporter.sendMail(...)`.  A run therefore
executes as two atomic phases on the shared `messages` array: the
selection phase (filter, guards, pick `unsentMessages[0]` — a reference
aliasing an element of `messages`), and the completion phase (the send
promise resolves, the aliased element is mutated, the result is
returned).  Both runs' send calls are taken to succeed, the spec's
always-succeeding stub backend. -/

/-- Index of the first unsent message: the element `unsentMessages[0]`
aliases. -/
def firstUnsentIdx (msgs : List Message) : Option Nat :=
  msgs.findIdx? (fun m => !m.sent)

/-- Mutate the element at index `i` to sent (the aliased in-place write). -/
def markIdx (msgs : List Message) (i : Nat) (now : Nat) : List Message :=
  match msgs.get? i with
  | some m => msgs.set i { m with sent := true, sentAt := some now }
  | none => msgs

/-- Progress of one dispatcher run between its atomic phases. -/
inductive RunPhase where
  | idle
  | awaitingSend (idx : Nat)
  | finished (r : SendResult)
deriving Repr, DecidableEq

/-- One atomic phase of one run (transporter configured, phone set,
send succeeds), acting on the run's phase and the shared queue. -/
def stepRun (now : Nat) : RunPhase × List Message → RunPhase × List Message
  | (.idle, msgs) =>
    if (msgs.filter (fun m => !m.sent)).isEmpty then
      (.finished { success := false, message := "No messages queued" }, msgs)
    else
      match firstUnsentIdx msgs with
      | some i => (.awaitingSend i, msgs)
      | none => (.finished { success := false, message := "No messages queued" }, msgs)
  | (.awaitingSend i, msgs) =>
    (.finished { success := true, message := "Message sent!" }, markIdx msgs i now)
  | (.finished r, msgs) => (.finished r, msgs)

/-- Shared state of two overlapping runs. -/
structure TwoRuns where
  runA : RunPhase
  runB : RunPhase
  msgs : List Message
deriving Repr, DecidableEq

/-- Let run A (`true`) or run B (`false`) take its next atomic phase. -/
def stepAB (now : Nat) (st : TwoRuns) (which : Bool) : TwoRuns :=
  if which then
    let next := stepRun now (st.runA, st.msgs)
    { st with runA := next.1, msgs := next.2 }
  else
    let next := stepRun now (st.runB, st.msgs)
    { st with runB := next.1, msgs := next.2 }

/-- Run the two overlapping invocations under a given interleaving. -/
def runSchedule (now : Nat) (sched : List Bool) (st : TwoRuns) : TwoRuns :=
  sched.foldl (stepAB now) st

/-! ## Helper lemmas -/

/-- A run that leaves the queue untouched flips no message. -/
theorem newlySent_self (l : List Message) : newlySent l l = 0 := by
  induction l with
  | nil => rfl
  | cons m rest ih =>
    unfold newlySent at ih ⊢
    rw [List.zip_cons_cons, List.filter_cons]
    have hm : (!m.sent && m.sent) = false := by cases m.sent <;> rfl
    simp only [hm, Bool.false_eq_true, if_false]
    exact ih

/-- Marking the first unsent message flips at most one message. -/
theorem newlySent_mark_le_one (now : Nat) (l : List Message) :
    newlySent l (markFirstUnsent now l) ≤ 1 := by
  induction l with
  | nil => simp [newlySent, markFirstUnsent]
  | cons m rest ih =>
    by_cases hm : m.sent = true
    · unfold markFirstUnsent
      rw [if_pos hm]
      unfold newlySent at ih ⊢
      rw [List.zip_cons_cons, List.filter_cons]
      have hp : (!m.sent && m.sent) = false := by cases m.sent <;> rfl
      simp only [hp, Bool.false_eq_true, if_false]
      exact ih
    · have hm' : m.sent = false := by
        cases h : m.sent
        · rfl
        · exact absurd h hm
      unfold markFirstUnsent
      rw [if_neg (by simp [hm'])]
      unfold newlySent
      rw [List.zip_cons_cons, List.filter_cons]
      have hp : (!m.sent &&
          ({ m with sent := true, sentAt := some now } : Message).sent) = true := by
        simp [hm']
      simp only [hp, if_true, List.length_cons]
      have hz : newlySent rest rest = 0 := newlySent_self rest
      unfold newlySent at hz
      omega

/-- A queue containing an unsent message has a nonempty unsent filter. -/
theorem filter_unsent_not_empty {msgs : List Message}
    (h : ∃ m ∈ msgs, m.sent = false) :
    (msgs.filter (fun m => !m.sent)).isEmpty = false := by
  obtain ⟨m, hm, hs⟩ := h
  have hmem : m ∈ msgs.filter (fun m => !m.sent) :=
    List.mem_filter.mpr ⟨hm, by simp [hs]⟩
  cases hf : msgs.filter (fun m => !m.sent) with
  | nil => rw [hf] at hmem; cases hmem
  | cons a t => rfl

/-- Decomposition of `markFirstUnsent`: when an unsent message exists, the
queue splits as an all-sent prefix, the first unsent message, and a suffix,
and marking updates exactly that middle element. -/
theorem markFirstUnsent_decomp (now : Nat) (msgs : List Message)
    (h : ∃ m ∈ msgs, m.sent = false) :
    ∃ pre m post,
      msgs = pre ++ m :: post ∧ (∀ x ∈ pre, x.sent = true) ∧ m.sent = false ∧
      markFirstUnsent now msgs =
        pre ++ ({ m with sent := true, sentAt := some now } : Message) :: post := by
  induction msgs with
  | nil =>
    obtain ⟨m, hm, _⟩ := h
    exact absurd hm (List.not_mem_nil m)
  | cons a rest ih =>
    by_cases ha : a.sent = true
    · have hrest : ∃ m ∈ rest, m.sent = false := by
        obtain ⟨m, hm, hs⟩ := h
        rcases List.mem_cons.mp hm with rfl | hm'
        · rw [hs] at ha; cases ha
        · exact ⟨m, hm', hs⟩
      obtain ⟨pre, m, post, he, hpre, hm, hmark⟩ := ih hrest
      refine ⟨a :: pre, m, post, by rw [he, List.cons_append], ?_, hm, ?_⟩
      · intro x hx
        rcases List.mem_cons.mp hx with rfl | hx'
        · exact ha
        · exact hpre x hx'
      · unfold markFirstUnsent
        rw [if_pos ha, hmark, List.cons_append]
    · have ha' : a.sent = false := by
        cases h' : a.sent
        · rfl
        · exact absurd h' ha
      refine ⟨[], a, rest, rfl, by simp, ha', ?_⟩
      unfold markFirstUnsent
      rw [if_neg (by simp [ha'])]
      rfl

/-- When the unsent filter is empty every message is sent. -/
theorem oldestUnsent_eq_none {msgs : List Message}
    (h : oldestUnsent msgs = none) : ∀ m ∈ msgs, m.sent = true := by
  intro m hm
  unfold oldestUnsent at h
  rw [List.head?_eq_none_iff] at h
  have := List.filter_eq_nil_iff.mp h m hm
  cases hs : m.sent
  · rw [hs] at this; simp at this
  · rfl

/-- On an id-sorted queue, the head of the unsent filter is an unsent
message of minimal id among the unsent. -/
theorem oldestUnsent_minimal {msgs : List Message}
    (hs : List.Pairwise (fun a b : Message => a.id ≤ b.id) msgs)
    {m : Message} (h : oldestUnsent msgs = some m) :
    m ∈ msgs ∧ m.sent = false ∧
      ∀ m' ∈ msgs, m'.sent = false → m.id ≤ m'.id := by
  unfold oldestUnsent at h
  obtain ⟨t, ht⟩ : ∃ t, msgs.filter (fun m => !m.sent) = m :: t := by
    cases hf : msgs.filter (fun m => !m.sent) with
    | nil => rw [hf] at h; cases h
    | cons a t =>
      rw [hf] at h
      refine ⟨t, ?_⟩
      have ham : a = m := by simpa [List.head?] using h
      rw [ham]
  have hmem : m ∈ msgs.filter (fun m => !m.sent) := by
    rw [ht]; exact List.mem_cons_self m t
  obtain ⟨hin, hsent⟩ := List.mem_filter.mp hmem
  have hsent' : m.sent = false := by
    cases h' : m.sent
    · rfl
    · rw [h'] at hsent; simp at hsent
  refine ⟨hin, hsent', ?_⟩
  intro m' hm' hs'
  have hm'f : m' ∈ msgs.filter (fun m => !m.sent) :=
    List.mem_filter.mpr ⟨hm', by simp [hs']⟩
  rw [ht] at hm'f
  rcases List.mem_cons.mp hm'f with rfl | hm't
  · exact Nat.le_refl _
  · have hpf : List.Pairwise (fun a b : Message => a.id ≤ b.id)
        (msgs.filter (fun m => !m.sent)) := hs.filter _
    rw [ht] at hpf
    exact List.rel_of_pairwise_cons hpf hm't

/-- Id-sortedness is preserved by any sequence of management calls whose
add timestamps are non-decreasing and dominate every id already queued. -/
theorem applyOps_sorted :
    ∀ (ops : List QOp) (msgs : List Message),
      List.Pairwise (· ≤ ·) (addTimes ops) →
      List.Pairwise (fun a b : Message => a.id ≤ b.id) msgs →
      (∀ m ∈ msgs, ∀ t ∈ addTimes ops, m.id ≤ t) →
      List.Pairwise (fun a b : Message => a.id ≤ b.id) (applyOps msgs ops)
  | [], msgs, _, hsorted, _ => hsorted
  | .add text now :: ops, msgs, htimes, hsorted, hbound => by
    have hstep : applyOps msgs (.add text now :: ops) =
        applyOps (msgs ++ [(⟨now, text, false, now, none⟩ : Message)]) ops := by
      simp [applyOps, applyOp, addMessage]
    rw [hstep]
    have htimes' : List.Pairwise (· ≤ ·) (addTimes ops) :=
      List.Pairwise.of_cons (by simpa [addTimes] using htimes)
    have hnowle : ∀ t ∈ addTimes ops, now ≤ t := by
      have hcons : List.Pairwise (· ≤ ·) (now :: addTimes ops) := by
        simpa [addTimes] using htimes
      exact fun t ht => List.rel_of_pairwise_cons hcons ht
    apply applyOps_sorted ops _ htimes'
    · rw [List.pairwise_append]
      refine ⟨hsorted, List.pairwise_singleton _ _, ?_⟩
      intro a ha b hb
      rw [List.mem_singleton] at hb
      subst hb
      exact hbound a ha now (by simp [addTimes])
    · intro m hm t ht
      rcases List.mem_append.mp hm with hm' | hm'
      · exact hbound m hm' t (by simp [addTimes, ht])
      · rw [List.mem_singleton] at hm'
        subst hm'
        exact hnowle t ht
  | .del idStr :: ops, msgs, htimes, hsorted, hbound => by
    have hstep : applyOps msgs (.del idStr :: ops) =
        applyOps (msgs.filter (fun m => !(idMatches (parseIntJs idStr) m.id))) ops := by
      simp [applyOps, applyOp, deleteMessage, deleteFilter]
    rw [hstep]
    have htimes' : List.Pairwise (· ≤ ·) (addTimes ops) := by
      simpa [addTimes] using htimes
    apply applyOps_sorted ops _ htimes' (hsorted.filter _)
    intro m hm t ht
    exact hbound m (List.mem_of_mem_filter hm) t (by simpa [addTimes] using ht)

/-! ## Claim theorems -/

/-- C6 counterexample: enqueueing an empty text does not fail — the call
reports success, appends the empty message, and persists, contradicting
the claimed `ValidationError` with no state change. -/
theorem addMessage_empty_text_counterexample :
    (addMessage "" 5 ([] : List Message)).1.success = true ∧
    (addMessage "" 5 ([] : List Message)).2.1 ≠ ([] : List Message) ∧
    (addMessage "" 5 ([] : List Message)).2.2 = true := by decide

/-- C6 (amended): an enqueue with empty text performs no validation: it
reports success, appends a message whose text is empty, and persists the
queue. -/
theorem addMessage_empty_text_appends (now : Nat) (msgs : List Message) :
    (addMessage "" now msgs).1.success = true ∧
    (addMessage "" now msgs).2.1 =
      msgs ++ [(⟨now, "", false, now, none⟩ : Message)] ∧
    (addMessage "" now msgs).2.2 = true :=
  ⟨rfl, rfl, rfl⟩

/-- C7: two enqueues within the same `Date.now()` millisecond receive the
same id — ids are not strictly increasing and collide, since the id is the
raw timestamp with no tie-breaking. -/
theorem addMessage_same_millisecond_id_collision :
    ((addMessage "second" 1000
        (addMessage "first" 1000 ([] : List Message)).2.1).1.message.id =
      (addMessage "first" 1000 ([] : List Message)).1.message.id) ∧
    ¬((addMessage "first" 1000 ([] : List Message)).1.message.id <
      (addMessage "second" 1000
        (addMessage "first" 1000 ([] : List Message)).2.1).1.message.id) := by
  decide

/-- C9 counterexample: deleting an id from an empty queue — where no
message with that id exists — still reports `success: true`, so the
returned boolean does not report whether a message existed. -/
theorem deleteMessage_true_without_existing_counterexample :
    (deleteMessage "5" ([] : List Message)).1 = true ∧
    (([] : List Message).any (fun m => idMatches (parseIntJs "5") m.id)) =
      false := by decide

/-- C9 (amended): `deleteMessage` answers `success: true` unconditionally;
its return value carries no information about whether a message with the
requested id existed. -/
theorem deleteMessage_always_reports_success (idStr : String)
    (msgs : List Message) : (deleteMessage idStr msgs).1 = true := rfl

/-- C10: the delete endpoint keeps exactly the messages whose id differs
from `parseInt` of the path segment (so all duplicate-id messages go in
one call), reports success regardless, and a non-numeric segment — for
which `parseInt` gives `NaN` — removes nothing yet still succeeds. -/
theorem deleteMessage_removes_all_parsed_id_matches (idStr : String)
    (msgs : List Message) :
    (deleteMessage idStr msgs).1 = true ∧
    (∀ m : Message, m ∈ (deleteMessage idStr msgs).2.1 ↔
      m ∈ msgs ∧ idMatches (parseIntJs idStr) m.id = false) ∧
    (parseIntJs idStr = none → (deleteMessage idStr msgs).2.1 = msgs) ∧
    parseIntJs "abc" = none := by
  refine ⟨rfl, ?_, ?_, by decide⟩
  · intro m
    simp [deleteMessage, deleteFilter, List.mem_filter]
  · intro h
    simp [deleteMessage, deleteFilter, h, idMatches]

/-- C10 witness: deleting with the non-numeric segment `"abc"` from a
one-message queue succeeds and leaves the queue unchanged. -/
theorem deleteMessage_removes_all_parsed_id_matches_witness :
    (deleteMessage "abc" [(⟨7, "x", false, 7, none⟩ : Message)]).1 = true ∧
    (deleteMessage "abc" [(⟨7, "x", false, 7, none⟩ : Message)]).2.1 =
      [(⟨7, "x", false, 7, none⟩ : Message)] := by
  have h := deleteMessage_removes_all_parsed_id_matches "abc"
    [(⟨7, "x", false, 7, none⟩ : Message)]
  exact ⟨h.1, h.2.2.1 h.2.2.2⟩

/-- C3: the dispatch procedure is not single-flight.  With one queued
unsent message, the interleaving select-A, select-B, resolve-A, resolve-B
— both runs suspended at `await transporter.sendMail` after selecting —
makes both runs report `Sent` for the same message, while the sequential
order select-A, resolve-A, select-B, resolve-B yields one `Sent` and one
`NoMessageQueued`. -/
theorem overlapping_runs_both_report_sent :
    (runSchedule 50 [true, false, true, false]
        (⟨.idle, .idle, [(⟨1, "hello", false, 0, none⟩ : Message)]⟩ :
          TwoRuns)).runA = .finished ⟨true, "Message sent!"⟩ ∧
    (runSchedule 50 [true, false, true, false]
        (⟨.idle, .idle, [(⟨1, "hello", false, 0, none⟩ : Message)]⟩ :
          TwoRuns)).runB = .finished ⟨true, "Message sent!"⟩ ∧
    (runSchedule 50 [true, true, false, false]
        (⟨.idle, .idle, [(⟨1, "hello", false, 0, none⟩ : Message)]⟩ :
          TwoRuns)).runB = .finished ⟨false, "No messages queued"⟩ := by
  decide

/-- C5 counterexample: updating an armed server (`"12:00"`, cron pattern
`0 12 * * *`) with the malformed `sendTime="25:99"` does report an error,
but the previously armed schedule is not retained: the prior cron job was
stopped before `cron.schedule` threw, leaving no timer armed, and the
malformed config was already persisted. -/
theorem updateConfig_malformed_time_counterexample :
    (updateConfig (⟨"5551234567", some "25:99", some "att"⟩ : ConfigBody)
      (⟨⟨"5551234567", "12:00", "att"⟩, ⟨"5551234567", "12:00", "att"⟩,
        ⟨some "0 12 * * *"⟩⟩ : ServerState)).1 = .error500 ∧
    (updateConfig (⟨"5551234567", some "25:99", some "att"⟩ : ConfigBody)
      (⟨⟨"5551234567", "12:00", "att"⟩, ⟨"5551234567", "12:00", "att"⟩,
        ⟨some "0 12 * * *"⟩⟩ : ServerState)).2.sched.armedCron = none ∧
    (updateConfig (⟨"5551234567", some "25:99", some "att"⟩ : ConfigBody)
      (⟨⟨"5551234567", "12:00", "att"⟩, ⟨"5551234567", "12:00", "att"⟩,
        ⟨some "0 12 * * *"⟩⟩ : ServerState)).2.sched.armedCron ≠
      some "0 12 * * *" ∧
    (updateConfig (⟨"5551234567", some "25:99", some "att"⟩ : ConfigBody)
      (⟨⟨"5551234567", "12:00", "att"⟩, ⟨"5551234567", "12:00", "att"⟩,
        ⟨some "0 12 * * *"⟩⟩ : ServerState)).2.savedConfig.sendTime =
      "25:99" := by decide

/-- C5 (amended): a config update whose `sendTime` yields a cron pattern
`cron.schedule` rejects (within the star-or-digit field fragment the model
covers) answers the caller with a 500 error, but only after the config has
been replaced and persisted and the prior cron job stopped: the scheduler
is left with no armed timer rather than the previously armed schedule. -/
theorem updateConfig_malformed_time_disarms (body : ConfigBody)
    (st : ServerState)
    (hshape1 : cronFieldSimple
      (sendTimeFields (jsOrDefault body.sendTime "12:00")).1 = true)
    (hshape2 : cronFieldSimple
      (sendTimeFields (jsOrDefault body.sendTime "12:00")).2 = true)
    (hbad : cronAccepts (jsOrDefault body.sendTime "12:00") = false) :
    (updateConfig body st).1 = .error500 ∧
    (updateConfig body st).2.sched.armedCron = none ∧
    (updateConfig body st).2.config.sendTime =
      jsOrDefault body.sendTime "12:00" ∧
    (updateConfig body st).2.savedConfig = (updateConfig body st).2.config := by
  simp [updateConfig, setupSchedule, hbad]

/-- C5 witness: the amended behaviour at the concrete malformed update
`sendTime="25:99"` against an armed server. -/
theorem updateConfig_malformed_time_disarms_witness :
    cronFieldSimple
      (sendTimeFields (jsOrDefault (some "25:99") "12:00")).1 = true ∧
    cronFieldSimple
      (sendTimeFields (jsOrDefault (some "25:99") "12:00")).2 = true ∧
    cronAccepts (jsOrDefault (some "25:99") "12:00") = false ∧
    ((updateConfig (⟨"5551234567", some "25:99", some "att"⟩ : ConfigBody)
        (⟨⟨"5551234567", "12:00", "att"⟩, ⟨"5551234567", "12:00", "att"⟩,
          ⟨some "0 12 * * *"⟩⟩ : ServerState)).1 = .error500 ∧
      (updateConfig (⟨"5551234567", some "25:99", some "att"⟩ : ConfigBody)
        (⟨⟨"5551234567", "12:00", "att"⟩, ⟨"5551234567", "12:00", "att"⟩,
          ⟨some "0 12 * * *"⟩⟩ : ServerState)).2.sched.armedCron = none ∧
      (updateConfig (⟨"5551234567", some "25:99", some "att"⟩ : ConfigBody)
        (⟨⟨"5551234567", "12:00", "att"⟩, ⟨"5551234567", "12:00", "att"⟩,
          ⟨some "0 12 * * *"⟩⟩ : ServerState)).2.config.sendTime =
        jsOrDefault (some "25:99") "12:00" ∧
      (updateConfig (⟨"5551234567", some "25:99", some "att"⟩ : ConfigBody)
        (⟨⟨"5551234567", "12:00", "att"⟩, ⟨"5551234567", "12:00", "att"⟩,
          ⟨some "0 12 * * *"⟩⟩ : ServerState)).2.savedConfig =
        (updateConfig (⟨"5551234567", some "25:99", some "att"⟩ : ConfigBody)
          (⟨⟨"5551234567", "12:00", "att"⟩, ⟨"5551234567", "12:00", "att"⟩,
            ⟨some "0 12 * * *"⟩⟩ : ServerState)).2.config) :=
  ⟨by decide, by decide, by decide,
    updateConfig_malformed_time_disarms _ _ (by decide) (by decide)
      (by decide)⟩

/-- C1: every dispatcher run flips at most one message from unsent to
sent; and when the checks pass and the backend send succeeds, exactly the
selected message — the first unsent one, of minimal id among the unsent on
an id-sorted queue — is marked `sent` with `sentAt` stamped to the current
time, the list is persisted, and the success result is returned. -/
theorem dispatch_success_marks_exactly_first_unsent
    (msgs : List Message) (phone : String) (now : Nat)
    (hsorted : List.Pairwise (fun a b : Message => a.id ≤ b.id) msgs)
    (hunsent : ∃ m ∈ msgs, m.sent = false)
    (hphone : phone ≠ "") :
    (∀ (tc : Bool) (p : String) (out : SendOutcome),
      newlySent msgs (sendDailyMessage msgs tc p out now).2.1 ≤ 1) ∧
    (sendDailyMessage msgs true phone .ok now).1 =
      ({ success := true, message := "Message sent!" } : SendResult) ∧
    (sendDailyMessage msgs true phone .ok now).2.2 = true ∧
    ∃ pre m post,
      msgs = pre ++ m :: post ∧ (∀ x ∈ pre, x.sent = true) ∧ m.sent = false ∧
      (∀ m' ∈ msgs, m'.sent = false → m.id ≤ m'.id) ∧
      (sendDailyMessage msgs true phone .ok now).2.1 =
        pre ++ ({ m with sent := true, sentAt := some now } : Message) :: post := by
  have hne : (msgs.filter (fun m => !m.sent)).isEmpty = false :=
    filter_unsent_not_empty hunsent
  have hrun : sendDailyMessage msgs true phone .ok now =
      (({ success := true, message := "Message sent!" } : SendResult),
        markFirstUnsent now msgs, true) := by
    simp [sendDailyMessage, hne, hphone]
  refine ⟨?_, by rw [hrun], by rw [hrun], ?_⟩
  · intro tc p out
    unfold sendDailyMessage
    split
    · simp [newlySent_self]
    · split
      · simp [newlySent_self]
      · split
        · simp [newlySent_self]
        · split
          · simpa using newlySent_mark_le_one now msgs
          · simp [newlySent_self]
  · obtain ⟨pre, m, post, he, hpre, hm, hmark⟩ :=
      markFirstUnsent_decomp now msgs hunsent
    refine ⟨pre, m, post, he, hpre, hm, ?_, by rw [hrun]; exact hmark⟩
    intro m' hm' hs'
    rw [he] at hsorted hm'
    rcases List.mem_append.mp hm' with hp | hc
    · rw [hpre m' hp] at hs'
      cases hs'
    · rcases List.mem_cons.mp hc with rfl | hpost
      · exact Nat.le_refl _
      · exact List.rel_of_pairwise_cons (List.pairwise_append.mp hsorted).2.1 hpost

/-- C1 witness: a concrete sorted queue with one sent and one unsent
message, a configured phone, and a succeeding backend. -/
theorem dispatch_success_marks_exactly_first_unsent_witness :
    List.Pairwise (fun a b : Message => a.id ≤ b.id)
      [(⟨1, "a", true, 1, some 1⟩ : Message), ⟨2, "b", false, 2, none⟩] ∧
    (∃ m ∈ [(⟨1, "a", true, 1, some 1⟩ : Message), ⟨2, "b", false, 2, none⟩],
      m.sent = false) ∧
    "5551234567" ≠ "" ∧
    ((∀ (tc : Bool) (p : String) (out : SendOutcome),
      newlySent [(⟨1, "a", true, 1, some 1⟩ : Message), ⟨2, "b", false, 2, none⟩]
        (sendDailyMessage
          [(⟨1, "a", true, 1, some 1⟩ : Message), ⟨2, "b", false, 2, none⟩]
          tc p out 10).2.1 ≤ 1) ∧
    (sendDailyMessage
      [(⟨1, "a", true, 1, some 1⟩ : Message), ⟨2, "b", false, 2, none⟩]
      true "5551234567" .ok 10).1 =
      ({ success := true, message := "Message sent!" } : SendResult) ∧
    (sendDailyMessage
      [(⟨1, "a", true, 1, some 1⟩ : Message), ⟨2, "b", false, 2, none⟩]
      true "5551234567" .ok 10).2.2 = true ∧
    ∃ pre m post,
      [(⟨1, "a", true, 1, some 1⟩ : Message), ⟨2, "b", false, 2, none⟩] =
        pre ++ m :: post ∧
      (∀ x ∈ pre, x.sent = true) ∧ m.sent = false ∧
      (∀ m' ∈ [(⟨1, "a", true, 1, some 1⟩ : Message), ⟨2, "b", false, 2, none⟩],
        m'.sent = false → m.id ≤ m'.id) ∧
      (sendDailyMessage
        [(⟨1, "a", true, 1, some 1⟩ : Message), ⟨2, "b", false, 2, none⟩]
        true "5551234567" .ok 10).2.1 =
        pre ++ ({ m with sent := true, sentAt := some 10 } : Message) :: post) :=
  ⟨by decide, by decide, by decide,
    dispatch_success_marks_exactly_first_unsent _ _ _ (by decide) (by decide)
      (by decide)⟩

/-- C2: when a message was selected (queue has an unsent message,
transporter configured, phone set) and the backend send rejects, the run
returns the failure result carrying the error reason, nothing is persisted,
the queue is unchanged, and the same message is still selected next. -/
theorem dispatch_failure_leaves_queue_unchanged
    (msgs : List Message) (phone reason : String) (now : Nat)
    (hunsent : ∃ m ∈ msgs, m.sent = false)
    (hphone : phone ≠ "") :
    (sendDailyMessage msgs true phone (.err reason) now).1 =
      ({ success := false, message := reason } : SendResult) ∧
    (sendDailyMessage msgs true phone (.err reason) now).2.1 = msgs ∧
    (sendDailyMessage msgs true phone (.err reason) now).2.2 = false ∧
    oldestUnsent (sendDailyMessage msgs true phone (.err reason) now).2.1 =
      oldestUnsent msgs := by
  have hne : (msgs.filter (fun m => !m.sent)).isEmpty = false :=
    filter_unsent_not_empty hunsent
  have hrun : sendDailyMessage msgs true phone (.err reason) now =
      (({ success := false, message := reason } : SendResult), msgs, false) := by
    simp [sendDailyMessage, hne, hphone]
  rw [hrun]
  exact ⟨rfl, rfl, rfl, rfl⟩

/-- C2 witness: a failing send (`"boom"`) against a one-unsent-message
queue leaves everything untouched. -/
theorem dispatch_failure_leaves_queue_unchanged_witness :
    (∃ m ∈ [(⟨2, "b", false, 2, none⟩ : Message)], m.sent = false) ∧
    "5551234567" ≠ "" ∧
    ((sendDailyMessage [(⟨2, "b", false, 2, none⟩ : Message)]
        true "5551234567" (.err "boom") 10).1 =
      ({ success := false, message := "boom" } : SendResult) ∧
    (sendDailyMessage [(⟨2, "b", false, 2, none⟩ : Message)]
        true "5551234567" (.err "boom") 10).2.1 =
      [(⟨2, "b", false, 2, none⟩ : Message)] ∧
    (sendDailyMessage [(⟨2, "b", false, 2, none⟩ : Message)]
        true "5551234567" (.err "boom") 10).2.2 = false ∧
    oldestUnsent (sendDailyMessage [(⟨2, "b", false, 2, none⟩ : Message)]
        true "5551234567" (.err "boom") 10).2.1 =
      oldestUnsent [(⟨2, "b", false, 2, none⟩ : Message)]) :=
  ⟨by decide, by decide,
    dispatch_failure_leaves_queue_unchanged _ _ _ _ (by decide) (by decide)⟩

/-- C8: for every sequence of add and delete calls applied to an initially
empty queue whose add timestamps are non-decreasing (the source draws ids
from `Date.now()`, monotone across successive calls), the dispatcher's
selection `oldestUnsent` is an unsent message of minimal id when one
exists and `none` exactly when all messages are sent — independent of the
order of deletions. -/
theorem oldestUnsent_is_lowest_id_unsent (ops : List QOp)
    (hmono : List.Pairwise (· ≤ ·) (addTimes ops)) :
    (oldestUnsent (applyOps [] ops) = none →
      ∀ m ∈ applyOps [] ops, m.sent = true) ∧
    (∀ m : Message, oldestUnsent (applyOps [] ops) = some m →
      m ∈ applyOps [] ops ∧ m.sent = false ∧
      ∀ m' ∈ applyOps [] ops, m'.sent = false → m.id ≤ m'.id) := by
  have hsorted :
      List.Pairwise (fun a b : Message => a.id ≤ b.id) (applyOps [] ops) :=
    applyOps_sorted ops [] hmono List.Pairwise.nil
      (by intro m hm; exact absurd hm (List.not_mem_nil m))
  exact ⟨fun h => oldestUnsent_eq_none h,
    fun m h => oldestUnsent_minimal hsorted h⟩

/-- C8 witness: add two messages at times 1 and 2, delete the first; the
selection is the remaining message with id 2. -/
theorem oldestUnsent_is_lowest_id_unsent_witness :
    List.Pairwise (· ≤ ·)
      (addTimes [QOp.add "a" 1, QOp.add "b" 2, QOp.del "1"]) ∧
    ((oldestUnsent (applyOps [] [QOp.add "a" 1, QOp.add "b" 2, QOp.del "1"]) =
        none →
      ∀ m ∈ applyOps [] [QOp.add "a" 1, QOp.add "b" 2, QOp.del "1"],
        m.sent = true) ∧
    (∀ m : Message,
      oldestUnsent (applyOps [] [QOp.add "a" 1, QOp.add "b" 2, QOp.del "1"]) =
        some m →
      m ∈ applyOps [] [QOp.add "a" 1, QOp.add "b" 2, QOp.del "1"] ∧
      m.sent = false ∧
      ∀ m' ∈ applyOps [] [QOp.add "a" 1, QOp.add "b" 2, QOp.del "1"],
        m'.sent = false → m.id ≤ m'.id)) :=
  ⟨by decide,
    oldestUnsent_is_lowest_id_unsent [QOp.add "a" 1, QOp.add "b" 2, QOp.del "1"]
      (by decide)⟩
